import Mathlib

/-!
Verification of the automatic wallpaper rotation scheduler (the
`useAutoWallpaper` hook).  The hook's two operations, `changeWallpaper`
(one rotation) and `startAutoChange` (arming the recurring timer), are
embedded as pure functions over explicit state.  Collaborator calls
(`getSettings`, `fetchRandomImage`, `setWallpaper`, `saveCurrentWallpaper`,
`triggerDownload`, the optional `onWallpaperChanged` callback) are modelled
by their outcome for the one invocation a rotation performs, an `Except`
value: `.error` stands for a rejected promise / thrown exception.  Each
rotation additionally produces a trace of events recording, in order, every
collaborator call it made and every write to the reentrancy guard.
-/

/-- A JavaScript number result: either a finite numeric value (modelled
exactly as a rational) or NaN.  NaN arises in `getIntervalMs` when the
record lookup `multipliers[unit]` misses and `value * undefined` is
evaluated. -/
inductive JSNumber where
  | num (q : ℚ)
  | nan
deriving DecidableEq, Repr

/-- The `multipliers` record of `getIntervalMs`: a lookup keyed by the
interval unit string, `undefined` (here `none`) for keys outside the
record. -/
def multipliers : String → Option ℚ := fun u =>
  if u = "minutes" then some (60 * 1000)
  else if u = "hours" then some (60 * 60 * 1000)
  else if u = "days" then some (24 * 60 * 60 * 1000)
  else if u = "weeks" then some (7 * 24 * 60 * 60 * 1000)
  else none

/-- `getIntervalMs(value, unit) = value * multipliers[unit]`.  When the
lookup misses, the JavaScript product with `undefined` is NaN. -/
def getIntervalMs (value : ℚ) (unit : String) : JSNumber :=
  match multipliers unit with
  | some m => .num (value * m)
  | none => .nan

/-- The settings record read through `getSettings` (fields the scheduler
uses).  `interval_unit` is a string in the persisted settings and is cast
to the unit enum at the call site. -/
structure WallpaperSettings where
  api_key : String
  auto_change : Bool
  interval_value : ℚ
  interval_unit : String
deriving DecidableEq, Repr

/-- The image descriptor fields the rotation reads: `image.id`,
`image.urls.full` and `image.links.download_location`. -/
structure UnsplashImage where
  id : String
  urlFull : String
  downloadLocation : String
deriving DecidableEq, Repr

/-- Outcomes of the collaborator calls for one invocation.  `.error`
models a rejected promise.  `onWallpaperChanged` is `none` when no
observer callback was registered. -/
structure Collaborators where
  getSettings : Except String WallpaperSettings
  fetchRandomImage : Except String UnsplashImage
  setWallpaper : Except String String
  saveCurrentWallpaper : Except String Unit
  triggerDownload : Except String Unit
  onWallpaperChanged : Option (Except String Unit)

/-- Observable events of one `changeWallpaper` invocation, in program
order: writes to `isRunningRef.current` and each collaborator call made. -/
inductive Event where
  | setGuard (b : Bool)
  | getSettingsCall
  | fetchCall
  | applyCall (url id : String)
  | saveCall (imgId path : String)
  | notifyCall (url : String)
  | observerCall
deriving DecidableEq, Repr

/-- State touched by a rotation: the reentrancy guard
(`isRunningRef.current`) and the persisted current-wallpaper record, which
only a successful `saveCurrentWallpaper` overwrites. -/
structure RotState where
  isRunning : Bool
  current : Option (UnsplashImage × String)
deriving DecidableEq, Repr

/-- The body of the `try` block of `changeWallpaper`: awaits each
collaborator in order, stopping at the first rejection (returned as
`some e`) or at the early settings-check `return` (returned as `none`).
Returns the thrown error if any, the state after the body, and the trace
of collaborator calls made. -/
def tryBody (c : Collaborators) (s : RotState) :
    Option String × RotState × List Event :=
  match c.getSettings with
  | .error e => (some e, s, [.getSettingsCall])
  | .ok st =>
    if st.api_key = "" || !st.auto_change then
      (none, s, [.getSettingsCall])
    else
      match c.fetchRandomImage with
      | .error e => (some e, s, [.getSettingsCall, .fetchCall])
      | .ok img =>
        match c.setWallpaper with
        | .error e =>
          (some e, s,
            [.getSettingsCall, .fetchCall, .applyCall img.urlFull img.id])
        | .ok path =>
          match c.saveCurrentWallpaper with
          | .error e =>
            (some e, s,
              [.getSettingsCall, .fetchCall, .applyCall img.urlFull img.id,
               .saveCall img.id path])
          | .ok _ =>
            let s1 : RotState := { s with current := some (img, path) }
            match c.triggerDownload with
            | .error e =>
              (some e, s1,
                [.getSettingsCall, .fetchCall, .applyCall img.urlFull img.id,
                 .saveCall img.id path, .notifyCall img.downloadLocation])
            | .ok _ =>
              match c.onWallpaperChanged with
              | none =>
                (none, s1,
                  [.getSettingsCall, .fetchCall, .applyCall img.urlFull img.id,
                   .saveCall img.id path, .notifyCall img.downloadLocation])
              | some (.error e) =>
                (some e, s1,
                  [.getSettingsCall, .fetchCall, .applyCall img.urlFull img.id,
                   .saveCall img.id path, .notifyCall img.downloadLocation,
                   .observerCall])
              | some (.ok _) =>
                (none, s1,
                  [.getSettingsCall, .fetchCall, .applyCall img.urlFull img.id,
                   .saveCall img.id path, .notifyCall img.downloadLocation,
                   .observerCall])

/-- One `changeWallpaper` invocation.  If the guard is already set the call
returns at once, making no collaborator call and leaving state untouched.
Otherwise it sets the guard, runs the `try` body, swallows any thrown error
in `catch` (a `console.error`), and clears the guard in `finally`.  The
`Except` codomain is the returned promise: `.error` would be a rejection
propagated to the caller. -/
def changeWallpaper (c : Collaborators) (s : RotState) :
    Except String (RotState × List Event) :=
  if s.isRunning then .ok (s, [])
  else
    let r := tryBody c { s with isRunning := true }
    .ok ({ r.2.1 with isRunning := false },
         Event.setGuard true :: (r.2.2 ++ [Event.setGuard false]))

/-- The event trace of a `changeWallpaper` invocation (empty list for the
impossible rejection case). -/
def eventsOf (c : Collaborators) (s : RotState) : List Event :=
  match changeWallpaper c s with
  | .ok (_, evs) => evs
  | .error _ => []

/-- The post-state of a `changeWallpaper` invocation. -/
def stateOf (c : Collaborators) (s : RotState) : RotState :=
  match changeWallpaper c s with
  | .ok (s1, _) => s1
  | .error _ => s

/-- Whether the whole rotation chain (settings read, validity check, fetch,
apply, save, notify) succeeds for the given collaborator outcomes. -/
def chainSucceeds (c : Collaborators) : Bool :=
  match c.getSettings with
  | .error _ => false
  | .ok st =>
    !(st.api_key = "" || !st.auto_change)
      && (match c.fetchRandomImage with | .ok _ => true | .error _ => false)
      && (match c.setWallpaper with | .ok _ => true | .error _ => false)
      && (match c.saveCurrentWallpaper with | .ok _ => true | .error _ => false)
      && (match c.triggerDownload with | .ok _ => true | .error _ => false)

/-- Timer state of the hook: `intervalRef.current` (`none` for `null`),
the set of live interval timers keyed by their id and carrying the delay
they were created with, and the id `window.setInterval` hands out next.
Browser timer ids are positive integers, so allocation starts at 1. -/
structure SchedState where
  intervalRef : Option Nat
  activeTimers : List (Nat × JSNumber)
  nextId : Nat
deriving DecidableEq, Repr

/-- JavaScript truthiness of the `number | null` value in `intervalRef`:
`null` and `0` are falsy. -/
def refTruthy : Option Nat → Bool := fun r =>
  match r with
  | none => false
  | some n => !(n = 0)

/-- `clearInterval(i)`: removes the timer with id `i`, if live. -/
def clearIntervalOn (st : SchedState) (i : Nat) : SchedState :=
  { st with activeTimers := st.activeTimers.filter (fun t => !(t.1 = i)) }

/-- `window.setInterval(changeWallpaper, ms)`: registers a new recurring
timer with a fresh id and returns that id. -/
def setIntervalOn (st : SchedState) (ms : JSNumber) : SchedState × Nat :=
  ({ st with activeTimers := st.activeTimers ++ [(st.nextId, ms)],
             nextId := st.nextId + 1 },
   st.nextId)

/-- One `startAutoChange` invocation.  `c` is the outcome of its
`getSettings` call; a rejection there propagates (the function has no
`try`/`catch`).  With valid settings it computes the cadence, clears any
truthy existing interval, starts a new interval and stores its id. -/
def startAutoChange (c : Except String WallpaperSettings)
    (st : SchedState) : Except String SchedState :=
  match c with
  | .error e => .error e
  | .ok s =>
    if !s.auto_change || s.api_key = "" then .ok st
    else
      let ms := getIntervalMs s.interval_value s.interval_unit
      let st1 :=
        if refTruthy st.intervalRef then
          clearIntervalOn st (st.intervalRef.getD 0)
        else st
      let p := setIntervalOn st1 ms
      .ok { p.1 with intervalRef := some p.2 }

/-- The post-state of a `startAutoChange` invocation (identity for the
rejection case). -/
def armedState (c : Except String WallpaperSettings)
    (st : SchedState) : SchedState :=
  match startAutoChange c st with
  | .ok st1 => st1
  | .error _ => st

/-- The scheduler handle invariant: `intervalRef` is `null` and no timer is
live, or it holds the positive id of the single live timer. -/
def RefConsistent (st : SchedState) : Prop :=
  match st.intervalRef with
  | none => st.activeTimers = []
  | some i => !(i = 0) ∧ ∃ ms, st.activeTimers = [(i, ms)]

/-- The spec's error taxonomy entry for cadence computation. -/
inductive ConfigError where
  | invalidUnit
deriving DecidableEq, Repr

/-- Modelled from the spec: the cadence computation as §4.2 and §7 demand
it — a fixed unit lookup multiplied by the value, rejecting unit values
outside the enum with a ConfigurationError instead of any non-error
result.  Stated only to compare against the source's `getIntervalMs`. -/
def cadenceMillisSpec (value : ℚ) (unit : String) : Except ConfigError ℚ :=
  match multipliers unit with
  | some m => .ok (value * m)
  | none => .error .invalidUnit

/-! Concrete inputs shared by witnesses and counterexamples. -/

/-- A concrete image descriptor. -/
def img0 : UnsplashImage :=
  { id := "img-1", urlFull := "https://img/full",
    downloadLocation := "https://img/dl" }

/-- Valid settings: key present, auto-change on. -/
def okSettings : WallpaperSettings :=
  { api_key := "k", auto_change := true,
    interval_value := 1, interval_unit := "hours" }

/-- Collaborator outcomes where every call succeeds and an observer is
registered. -/
def cAllOk : Collaborators :=
  { getSettings := .ok okSettings, fetchRandomImage := .ok img0,
    setWallpaper := .ok "/tmp/w.jpg", saveCurrentWallpaper := .ok (),
    triggerDownload := .ok (), onWallpaperChanged := some (.ok ()) }

/-- Collaborator outcomes where only `saveCurrentWallpaper` rejects. -/
def cSaveFails : Collaborators :=
  { getSettings := .ok okSettings, fetchRandomImage := .ok img0,
    setWallpaper := .ok "/tmp/w.jpg",
    saveCurrentWallpaper := .error "disk full",
    triggerDownload := .ok (), onWallpaperChanged := some (.ok ()) }

/-- Collaborator outcomes where only `fetchRandomImage` rejects. -/
def cFetchFails : Collaborators :=
  { getSettings := .ok okSettings,
    fetchRandomImage := .error "network down",
    setWallpaper := .ok "/tmp/w.jpg", saveCurrentWallpaper := .ok (),
    triggerDownload := .ok (), onWallpaperChanged := some (.ok ()) }

/-- Collaborator outcomes where settings read back with auto-change off. -/
def cDisabled : Collaborators :=
  { getSettings := .ok { okSettings with auto_change := false },
    fetchRandomImage := .ok img0, setWallpaper := .ok "/tmp/w.jpg",
    saveCurrentWallpaper := .ok (), triggerDownload := .ok (),
    onWallpaperChanged := some (.ok ()) }

/-- Guard clear, no wallpaper persisted yet. -/
def rotState0 : RotState := { isRunning := false, current := none }

/-- The initial timer state of the hook: `intervalRef` null, no timer. -/
def schedState0 : SchedState :=
  { intervalRef := none, activeTimers := [], nextId := 1 }

/-! Helper lemmas. -/

/-- The try body records no guard write: guard writes happen only at the
entry and in the finally clause of changeWallpaper. -/
theorem tryBody_no_guard_event (c : Collaborators) (s : RotState) (b : Bool) :
    Event.setGuard b ∉ (tryBody c s).2.2 := by
  unfold tryBody
  repeat' split
  all_goals simp

/-- The try body never writes the guard flag itself. -/
theorem tryBody_isRunning (c : Collaborators) (s : RotState) :
    (tryBody c s).2.1.isRunning = s.isRunning := by
  unfold tryBody
  repeat' split
  all_goals rfl

/-! Claim theorems. -/

/-- C1: a changeWallpaper invocation that begins while the reentrancy
guard is still set returns immediately with state untouched and an empty
event trace — no settings read, no fetch, no apply, no save, no notify,
and nothing queued. -/
theorem changeWallpaper_overlap_dropped (c : Collaborators) (s : RotState)
    (h : s.isRunning = true) : changeWallpaper c s = .ok (s, []) := by
  unfold changeWallpaper
  simp [h]

/-- Witness for C1 at concrete collaborators and a running guard. -/
theorem changeWallpaper_overlap_dropped_witness :
    changeWallpaper cAllOk { isRunning := true, current := none } =
      .ok ({ isRunning := true, current := none }, []) :=
  changeWallpaper_overlap_dropped cAllOk { isRunning := true, current := none } rfl

/-- C6: starting with the guard clear, every run of changeWallpaper — for
every combination of collaborator outcomes, hence success, any failing
step, and the early settings abort — first sets the guard, performs
collaborator calls with no further guard write, and ends by clearing the
guard, leaving the flag false. -/
theorem changeWallpaper_guard_discipline (c : Collaborators) (s : RotState)
    (h : s.isRunning = false) :
    ∃ s1 mid,
      changeWallpaper c s =
          .ok (s1, Event.setGuard true :: (mid ++ [Event.setGuard false]))
        ∧ s1.isRunning = false
        ∧ ∀ b, Event.setGuard b ∉ mid := by
  refine ⟨{ (tryBody c { s with isRunning := true }).2.1 with isRunning := false },
          (tryBody c { s with isRunning := true }).2.2, ?_, rfl,
          fun b => tryBody_no_guard_event c { s with isRunning := true } b⟩
  unfold changeWallpaper
  simp [h]

/-- Witness for C6 at concrete collaborators. -/
theorem changeWallpaper_guard_discipline_witness :
    ∃ s1 mid,
      changeWallpaper cAllOk rotState0 =
          .ok (s1, Event.setGuard true :: (mid ++ [Event.setGuard false]))
        ∧ s1.isRunning = false
        ∧ ∀ b, Event.setGuard b ∉ mid :=
  changeWallpaper_guard_discipline cAllOk rotState0 rfl

/-- C9: settings are re-read at the start of every rotation; when the key
is empty or auto-change is off at that moment, the rotation aborts right
after the settings read — the trace holds no fetch, apply, save, notify
or observer call — with the record unchanged and the guard cleared. -/
theorem changeWallpaper_stale_tick_aborts (c : Collaborators) (s : RotState)
    (st : WallpaperSettings)
    (h : s.isRunning = false) (hs : c.getSettings = .ok st)
    (hv : st.api_key = "" ∨ st.auto_change = false) :
    changeWallpaper c s =
      .ok ({ isRunning := false, current := s.current },
           [Event.setGuard true, Event.getSettingsCall, Event.setGuard false]) := by
  unfold changeWallpaper tryBody
  rcases hv with hv | hv <;> simp [h, hs, hv]

/-- Witness for C9: auto-change disabled at tick time. -/
theorem changeWallpaper_stale_tick_aborts_witness :
    changeWallpaper cDisabled rotState0 =
      .ok ({ isRunning := false, current := none },
           [Event.setGuard true, Event.getSettingsCall, Event.setGuard false]) :=
  changeWallpaper_stale_tick_aborts cDisabled rotState0
    { okSettings with auto_change := false } rfl rfl (Or.inr rfl)

/-- C5: when the image fetch rejects (with valid settings and the guard
clear), the rotation aborts with the current-wallpaper record unchanged,
the trace holding neither an apply nor a notify (nor save, nor observer)
call, and the guard cleared. -/
theorem changeWallpaper_fetch_failure (c : Collaborators) (s : RotState)
    (st : WallpaperSettings) (e : String)
    (h : s.isRunning = false) (hs : c.getSettings = .ok st)
    (hk : ¬ st.api_key = "") (ha : st.auto_change = true)
    (hf : c.fetchRandomImage = .error e) :
    changeWallpaper c s =
      .ok ({ isRunning := false, current := s.current },
           [Event.setGuard true, Event.getSettingsCall, Event.fetchCall,
            Event.setGuard false]) := by
  unfold changeWallpaper tryBody
  simp [h, hs, hk, ha, hf]

/-- Witness for C5 at a concrete failing fetch. -/
theorem changeWallpaper_fetch_failure_witness :
    changeWallpaper cFetchFails rotState0 =
      .ok ({ isRunning := false, current := none },
           [Event.setGuard true, Event.getSettingsCall, Event.fetchCall,
            Event.setGuard false]) :=
  changeWallpaper_fetch_failure cFetchFails rotState0 okSettings "network down"
    rfl rfl (by decide) rfl rfl

/-- C10: for every combination of collaborator outcomes and every starting
state, changeWallpaper resolves — it never propagates a rejection to its
caller; every collaborator error is swallowed by the catch clause. -/
theorem changeWallpaper_never_rejects (c : Collaborators) (s : RotState) :
    ∃ r, changeWallpaper c s = .ok r := by
  unfold changeWallpaper
  split
  · exact ⟨_, rfl⟩
  · exact ⟨_, rfl⟩

/-- C3 counterexample: with every collaborator succeeding except a
rejecting saveCurrentWallpaper, the apply step did run, yet no notify
call appears in the trace — the save failure aborts the rest of the
rotation instead of being non-fatal to it. -/
theorem changeWallpaper_save_failure_cex :
    Event.applyCall img0.urlFull img0.id ∈ eventsOf cSaveFails rotState0
      ∧ Event.notifyCall img0.downloadLocation ∉ eventsOf cSaveFails rotState0 := by
  decide

/-- C3 as amended: when save rejects after a successful apply (valid
settings, guard clear), the trace shows the apply call happened but ends
at the save call: triggerDownload is not attempted, the record stays
unchanged, the error is caught (the rotation still resolves) and the
guard is cleared. -/
theorem changeWallpaper_save_failure_skips_notify (c : Collaborators)
    (s : RotState) (st : WallpaperSettings) (img : UnsplashImage)
    (path e : String)
    (h : s.isRunning = false) (hs : c.getSettings = .ok st)
    (hk : ¬ st.api_key = "") (ha : st.auto_change = true)
    (hf : c.fetchRandomImage = .ok img)
    (hw : c.setWallpaper = .ok path)
    (hsv : c.saveCurrentWallpaper = .error e) :
    changeWallpaper c s =
      .ok ({ isRunning := false, current := s.current },
           [Event.setGuard true, Event.getSettingsCall, Event.fetchCall,
            Event.applyCall img.urlFull img.id, Event.saveCall img.id path,
            Event.setGuard false]) := by
  unfold changeWallpaper tryBody
  simp [h, hs, hk, ha, hf, hw, hsv]

/-- Witness for the amended C3 at concrete collaborators. -/
theorem changeWallpaper_save_failure_skips_notify_witness :
    changeWallpaper cSaveFails rotState0 =
      .ok ({ isRunning := false, current := none },
           [Event.setGuard true, Event.getSettingsCall, Event.fetchCall,
            Event.applyCall img0.urlFull img0.id,
            Event.saveCall img0.id "/tmp/w.jpg", Event.setGuard false]) :=
  changeWallpaper_save_failure_skips_notify cSaveFails rotState0 okSettings
    img0 "/tmp/w.jpg" "disk full" rfl rfl (by decide) rfl rfl rfl rfl

/-- C4 counterexample: same save-rejecting run, with an observer
registered — apply succeeded, yet the observer callback is never
invoked, so the callback does not fire iff apply succeeded. -/
theorem changeWallpaper_observer_suppressed_cex :
    Event.applyCall img0.urlFull img0.id ∈ eventsOf cSaveFails rotState0
      ∧ Event.observerCall ∉ eventsOf cSaveFails rotState0 := by
  decide

/-- C4 as amended: with an observer registered and the guard clear, the
observer callback is invoked exactly once iff the entire chain through
triggerDownload succeeded — a failure of save or notify suppresses the
notification, and it never fires on an aborted rotation. -/
theorem changeWallpaper_observer_iff_chain (c : Collaborators) (s : RotState)
    (hreg : c.onWallpaperChanged.isSome = true)
    (h : s.isRunning = false) :
    (eventsOf c s).count Event.observerCall
      = if chainSucceeds c then 1 else 0 := by
  obtain ⟨gs, fr, sw, sc, td, ow⟩ := c
  rcases ow with _ | r
  · simp at hreg
  · unfold eventsOf changeWallpaper tryBody chainSucceeds
    rcases gs with e | st
    · simp [h]
    · by_cases hk : st.api_key = "" <;> by_cases ha : st.auto_change <;>
        rcases fr with e | img <;> rcases sw with e | path <;>
        rcases sc with e | u <;> rcases td with e | u2 <;>
        rcases r with e | u3 <;>
        simp [h, hk, ha]

/-- Witness for the amended C4 on the all-success run. -/
theorem changeWallpaper_observer_iff_chain_witness :
    (eventsOf cAllOk rotState0).count Event.observerCall
      = if chainSucceeds cAllOk then 1 else 0 :=
  changeWallpaper_observer_iff_chain cAllOk rotState0 rfl rfl

/-- C2 counterexample: at value 5 and unit "seconds" (outside the enum)
the source computation returns the non-error value NaN — the silent
result of multiplying by an undefined lookup — where the claim demands a
ConfigurationError, as the spec-modelled cadenceMillisSpec produces. -/
theorem getIntervalMs_invalid_unit_cex :
    getIntervalMs 5 "seconds" = JSNumber.nan
      ∧ cadenceMillisSpec 5 "seconds" = .error ConfigError.invalidUnit := by
  constructor <;> rfl

/-- C2 as amended: for every value and every unit outside the enum, the
cadence computation silently returns NaN (the JavaScript product with the
undefined lookup) instead of failing with a ConfigurationError. -/
theorem getIntervalMs_invalid_unit_nan (value : ℚ) (unit : String)
    (h1 : unit ≠ "minutes") (h2 : unit ≠ "hours")
    (h3 : unit ≠ "days") (h4 : unit ≠ "weeks") :
    getIntervalMs value unit = JSNumber.nan := by
  unfold getIntervalMs multipliers
  simp [h1, h2, h3, h4]

/-- Witness for the amended C2 at a concrete invalid unit. -/
theorem getIntervalMs_invalid_unit_nan_witness :
    getIntervalMs 5 "seconds" = JSNumber.nan :=
  getIntervalMs_invalid_unit_nan 5 "seconds"
    (by decide) (by decide) (by decide) (by decide)

/-- C8: for every value and each valid unit, the cadence is the value
multiplied by the fixed unit multiplier: minutes = 60,000 ms, hours =
3,600,000 ms, days = 86,400,000 ms, weeks = 604,800,000 ms. -/
theorem getIntervalMs_valid_units (value : ℚ) :
    getIntervalMs value "minutes" = .num (value * 60000)
      ∧ getIntervalMs value "hours" = .num (value * 3600000)
      ∧ getIntervalMs value "days" = .num (value * 86400000)
      ∧ getIntervalMs value "weeks" = .num (value * 604800000) := by
  have hm : multipliers "minutes" = some (60 * 1000) := by
    unfold multipliers
    rw [if_pos rfl]
  have hh : multipliers "hours" = some (60 * 60 * 1000) := by
    unfold multipliers
    rw [if_neg (by decide), if_pos rfl]
  have hd : multipliers "days" = some (24 * 60 * 60 * 1000) := by
    unfold multipliers
    rw [if_neg (by decide), if_neg (by decide), if_pos rfl]
  have hw : multipliers "weeks" = some (7 * 24 * 60 * 60 * 1000) := by
    unfold multipliers
    rw [if_neg (by decide), if_neg (by decide), if_neg (by decide), if_pos rfl]
  refine ⟨?_, ?_, ?_, ?_⟩ <;> unfold getIntervalMs
  · rw [hm]
    exact congrArg JSNumber.num (by norm_num)
  · rw [hh]
    exact congrArg JSNumber.num (by norm_num)
  · rw [hd]
    exact congrArg JSNumber.num (by norm_num)
  · rw [hw]
    exact congrArg JSNumber.num (by norm_num)

/-- C7: two successive startAutoChange calls with valid settings, from
any state satisfying the scheduler handle invariant, each leave exactly
one live timer; after the second call the single live timer is the one
the second call created, carrying the second call's cadence, and the
first call's timer (id st.nextId) is gone. -/
theorem startAutoChange_rearm (st : SchedState) (s1 s2 : WallpaperSettings)
    (hc : RefConsistent st) (hn : 1 ≤ st.nextId)
    (h1a : s1.auto_change = true) (h1k : ¬ s1.api_key = "")
    (h2a : s2.auto_change = true) (h2k : ¬ s2.api_key = "") :
    ∃ st1 st2,
      startAutoChange (.ok s1) st = .ok st1
        ∧ startAutoChange (.ok s2) st1 = .ok st2
        ∧ st1.activeTimers
            = [(st.nextId, getIntervalMs s1.interval_value s1.interval_unit)]
        ∧ st2.activeTimers
            = [(st.nextId + 1, getIntervalMs s2.interval_value s2.interval_unit)]
        ∧ st.nextId + 1 ≠ st.nextId := by
  have hz : ¬ st.nextId = 0 := by omega
  refine ⟨⟨some st.nextId,
           [(st.nextId, getIntervalMs s1.interval_value s1.interval_unit)],
           st.nextId + 1⟩,
          ⟨some (st.nextId + 1),
           [(st.nextId + 1, getIntervalMs s2.interval_value s2.interval_unit)],
           st.nextId + 2⟩,
          ?_, ?_, rfl, rfl, by omega⟩
  · unfold RefConsistent at hc
    unfold startAutoChange setIntervalOn clearIntervalOn refTruthy
    rcases hr : st.intervalRef with _ | i
    · rw [hr] at hc
      simp [h1a, h1k, hr, hc]
    · rw [hr] at hc
      obtain ⟨hi, ms, hts⟩ := hc
      simp [h1a, h1k, hr, hi, hts]
  · unfold startAutoChange setIntervalOn clearIntervalOn refTruthy
    simp [h2a, h2k, hz]

/-- Witness for C7: re-arming from the initial state with hours then
minutes settings. -/
theorem startAutoChange_rearm_witness :
    ∃ st1 st2,
      startAutoChange (.ok okSettings) schedState0 = .ok st1
        ∧ startAutoChange
            (.ok { okSettings with interval_value := 2,
                                   interval_unit := "minutes" }) st1 = .ok st2
        ∧ st1.activeTimers
            = [(schedState0.nextId, getIntervalMs 1 "hours")]
        ∧ st2.activeTimers
            = [(schedState0.nextId + 1, getIntervalMs 2 "minutes")]
        ∧ schedState0.nextId + 1 ≠ schedState0.nextId :=
  startAutoChange_rearm schedState0 okSettings
    { okSettings with interval_value := 2, interval_unit := "minutes" }
    (by unfold RefConsistent schedState0
        simp)
    (by decide) rfl (by decide) rfl (by decide)
